import Mathlib

/-!
Shallow embedding of the VIB34D unified reactivity core
(`src/controls/UnifiedReactivitySystem.js`): the parameter store, the
relationship table, the constraint policy, the smoother, the per-frame tick,
and the `TouchGyroscope6D` momentum-dampening loop.  JavaScript numbers are
modelled by `ℚ` for the finite-value claims and by `JSNum`
(NaN / ±Infinity / finite) where the claims concern non-finite values.
-/

/-- The parameter identifiers registered in the `UnifiedReactivitySystem`
constructor (`this.parameters`). -/
inductive ParamId where
  | rot4dXW | rot4dYW | rot4dZW | rot4dXY | rot4dXZ | rot4dYZ
  | geometry | gridDensity | morphFactor | chaos | speed | scale
  | hue | intensity | saturation
deriving DecidableEq

/-- Per-parameter state record `{ value, base, reactive, smoothed }`. -/
structure ParamState where
  value : ℚ
  base : ℚ
  reactive : ℚ
  smoothed : ℚ
deriving DecidableEq

/-- The whole parameter store, keyed by parameter id. -/
abbrev Store := ParamId → ParamState

/-- Initial parameter store from the constructor of `UnifiedReactivitySystem`. -/
def initialParameters : Store := fun p =>
  match p with
  | ParamId.rot4dXW => ⟨0, 0, 0, 0⟩
  | ParamId.rot4dYW => ⟨0, 0, 0, 0⟩
  | ParamId.rot4dZW => ⟨0, 0, 0, 0⟩
  | ParamId.rot4dXY => ⟨0, 0, 0, 0⟩
  | ParamId.rot4dXZ => ⟨0, 0, 0, 0⟩
  | ParamId.rot4dYZ => ⟨0, 0, 0, 0⟩
  | ParamId.geometry => ⟨0, 0, 0, 0⟩
  | ParamId.gridDensity => ⟨15, 15, 0, 15⟩
  | ParamId.morphFactor => ⟨1/2, 1/2, 0, 1/2⟩
  | ParamId.chaos => ⟨1/5, 1/5, 0, 1/5⟩
  | ParamId.speed => ⟨1, 1, 0, 1⟩
  | ParamId.scale => ⟨1, 1, 0, 1⟩
  | ParamId.hue => ⟨200, 200, 0, 200⟩
  | ParamId.intensity => ⟨9/10, 9/10, 0, 9/10⟩
  | ParamId.saturation => ⟨3/5, 3/5, 0, 3/5⟩

/-- A relationship entry: positive targets, negative targets, and the
multiplier table (absent entries modelled by `Option.none`). -/
structure Relationship where
  positive : List ParamId
  negative : List ParamId
  multipliers : ParamId → Option ℚ

/-- `this.relationships.audioBass`. -/
def audioBass : Relationship where
  positive := [ParamId.rot4dXW, ParamId.rot4dYW, ParamId.scale, ParamId.intensity]
  negative := [ParamId.gridDensity, ParamId.saturation, ParamId.speed]
  multipliers := fun p =>
    match p with
    | ParamId.rot4dXW => Option.some 2
    | ParamId.rot4dYW => Option.some (3/2)
    | ParamId.scale => Option.some (1/2)
    | ParamId.intensity => Option.some (3/10)
    | ParamId.gridDensity => Option.some (-(3/10))
    | ParamId.saturation => Option.some (-(1/5))
    | ParamId.speed => Option.some (-(1/5))
    | _ => Option.none

/-- `this.relationships.audioMid`. -/
def audioMid : Relationship where
  positive := [ParamId.morphFactor, ParamId.chaos, ParamId.rot4dZW, ParamId.rot4dXY]
  negative := [ParamId.gridDensity]
  multipliers := fun p =>
    match p with
    | ParamId.morphFactor => Option.some 1
    | ParamId.chaos => Option.some (4/5)
    | ParamId.rot4dZW => Option.some (6/5)
    | ParamId.rot4dXY => Option.some 1
    | ParamId.gridDensity => Option.some (-(1/5))
    | _ => Option.none

/-- `this.relationships.audioHigh`. -/
def audioHigh : Relationship where
  positive := [ParamId.hue, ParamId.rot4dXZ, ParamId.rot4dYZ, ParamId.speed]
  negative := [ParamId.scale, ParamId.morphFactor]
  multipliers := fun p =>
    match p with
    | ParamId.hue => Option.some 50
    | ParamId.rot4dXZ => Option.some (4/5)
    | ParamId.rot4dYZ => Option.some (4/5)
    | ParamId.speed => Option.some (2/5)
    | ParamId.scale => Option.some (-(1/5))
    | ParamId.morphFactor => Option.some (-(3/10))
    | _ => Option.none

/-- `this.relationships.touchVelocity`. -/
def touchVelocity : Relationship where
  positive := [ParamId.chaos, ParamId.intensity, ParamId.speed]
  negative := [ParamId.saturation, ParamId.gridDensity]
  multipliers := fun p =>
    match p with
    | ParamId.chaos => Option.some (3/5)
    | ParamId.intensity => Option.some (2/5)
    | ParamId.speed => Option.some (3/10)
    | ParamId.saturation => Option.some (-(3/10))
    | ParamId.gridDensity => Option.some (-(2/5))
    | _ => Option.none

/-- `this.relationships.gyroscopeTilt`. -/
def gyroscopeTilt : Relationship where
  positive := [ParamId.morphFactor, ParamId.hue, ParamId.scale]
  negative := [ParamId.speed, ParamId.chaos]
  multipliers := fun p =>
    match p with
    | ParamId.morphFactor => Option.some (4/5)
    | ParamId.hue => Option.some 30
    | ParamId.scale => Option.some (3/10)
    | ParamId.speed => Option.some (-(1/5))
    | ParamId.chaos => Option.some (-(1/5))
    | _ => Option.none

/-- `this.relationships.pinchGesture`. -/
def pinchGesture : Relationship where
  positive := [ParamId.scale, ParamId.gridDensity, ParamId.intensity]
  negative := [ParamId.chaos, ParamId.speed]
  multipliers := fun p =>
    match p with
    | ParamId.scale => Option.some 1
    | ParamId.gridDensity => Option.some (1/2)
    | ParamId.intensity => Option.some (3/10)
    | ParamId.chaos => Option.some (-(2/5))
    | ParamId.speed => Option.some (-(3/10))
    | _ => Option.none

/-- `this.relationships.beatDetected`. -/
def beatDetected : Relationship where
  positive := [ParamId.intensity, ParamId.chaos, ParamId.speed, ParamId.scale]
  negative := [ParamId.saturation]
  multipliers := fun p =>
    match p with
    | ParamId.intensity => Option.some (4/5)
    | ParamId.chaos => Option.some (3/5)
    | ParamId.speed => Option.some (1/2)
    | ParamId.scale => Option.some (2/5)
    | ParamId.saturation => Option.some (-(1/5))
    | _ => Option.none

/-- `this.relationships.harmonicResonance`. -/
def harmonicResonance : Relationship where
  positive := [ParamId.hue, ParamId.saturation, ParamId.intensity]
  negative := [ParamId.chaos]
  multipliers := fun p =>
    match p with
    | ParamId.hue => Option.some 20
    | ParamId.saturation => Option.some (3/10)
    | ParamId.intensity => Option.some (1/5)
    | ParamId.chaos => Option.some (-(3/10))
    | _ => Option.none

/-- The constructor's relationship table `this.relationships`, keyed by
signal name; unknown names yield `Option.none` (property lookup miss). -/
def relationships : String → Option Relationship := fun name =>
  if name = "audioBass" then Option.some audioBass
  else if name = "audioMid" then Option.some audioMid
  else if name = "audioHigh" then Option.some audioHigh
  else if name = "touchVelocity" then Option.some touchVelocity
  else if name = "gyroscopeTilt" then Option.some gyroscopeTilt
  else if name = "pinchGesture" then Option.some pinchGesture
  else if name = "beatDetected" then Option.some beatDetected
  else if name = "harmonicResonance" then Option.some harmonicResonance
  else Option.none

/-- Add `d` to `reactive` of parameter `p` (`this.parameters[p].reactive += d`). -/
def updateReactive (s : Store) (p : ParamId) (d : ℚ) : Store := fun q =>
  if q = p then
    { s p with reactive := (s p).reactive + d }
  else s q

/-- Multiplier used for a positive target:
`relationship.multipliers[param] || 1.0` — JavaScript `||` replaces an
absent entry, and also a `0` entry (falsy), by `1.0`. -/
def posMulOf (rel : Relationship) (p : ParamId) : ℚ :=
  match rel.multipliers p with
  | Option.none => 1
  | Option.some m => if m = 0 then 1 else m

/-- Multiplier used for a negative target:
`Math.abs(relationship.multipliers[param]) || 1.0` — absent entries give
`Math.abs(undefined) = NaN` which is falsy, and `|0| = 0` is falsy, so both
fall back to `1.0`. -/
def negMulOf (rel : Relationship) (p : ParamId) : ℚ :=
  match rel.multipliers p with
  | Option.none => 1
  | Option.some m => if |m| = 0 then 1 else |m|

/-- `applyRelationship(relationshipName, intensity)`: unknown names return
without mutation; otherwise every positive target's reactive accumulator is
incremented by `intensity * multiplier` and every negative target's is
decremented by `intensity * |multiplier|` (with the `|| 1.0` fallback). -/
def applyRelationship (tbl : String → Option Relationship) (name : String)
    (intensity : ℚ) (s : Store) : Store :=
  match tbl name with
  | Option.none => s
  | Option.some rel =>
      let s1 := rel.positive.foldl (fun st p => updateReactive st p (intensity * posMulOf rel p)) s
      rel.negative.foldl (fun st p => updateReactive st p (-(intensity * negMulOf rel p))) s1

/-- `configureRelationship(relationshipName, multipliers)`:
`Object.assign` of the update onto the existing multiplier table
(no-op for unknown relationship names). -/
def configureRelationship (tbl : String → Option Relationship) (name : String)
    (upd : ParamId → Option ℚ) : String → Option Relationship := fun n =>
  if n = name then
    match tbl n with
    | Option.none => Option.none
    | Option.some rel =>
        Option.some { rel with
          multipliers := fun p =>
            match upd p with
            | Option.some m => Option.some m
            | Option.none => rel.multipliers p }
  else tbl n

/-- The net reactive delta one `applyRelationship` call contributes to
parameter `p` (per occurrence in the positive / negative target lists). -/
def relDelta (tbl : String → Option Relationship) (name : String)
    (intensity : ℚ) (p : ParamId) : ℚ :=
  match tbl name with
  | Option.none => 0
  | Option.some rel =>
      (rel.positive.count p : ℚ) * (intensity * posMulOf rel p)
      - (rel.negative.count p : ℚ) * (intensity * negMulOf rel p)

/-- A constraint spec `{ min, max, wrap }` from `constrainParameter`. -/
structure Constraint where
  lo : ℚ
  hi : ℚ
  wrap : Bool
deriving DecidableEq

/-- The constraint table hard-coded inside `constrainParameter`; the six
rotation parameters have no entry ("No constraints for rotations"). -/
def constraintOf : ParamId → Option Constraint := fun p =>
  match p with
  | ParamId.geometry => Option.some ⟨0, 9, false⟩
  | ParamId.gridDensity => Option.some ⟨1, 64, false⟩
  | ParamId.morphFactor => Option.some ⟨0, 2, false⟩
  | ParamId.chaos => Option.some ⟨0, 1, false⟩
  | ParamId.speed => Option.some ⟨1/10, 3, false⟩
  | ParamId.scale => Option.some ⟨1/4, 3, false⟩
  | ParamId.hue => Option.some ⟨0, 360, true⟩
  | ParamId.intensity => Option.some ⟨0, 2, false⟩
  | ParamId.saturation => Option.some ⟨0, 1, false⟩
  | _ => Option.none

/-- `while (value < constraint.min) value += (constraint.max - constraint.min)`.
The `0 < w` guard makes the recursion well-founded; every width in the
constraint table is positive, so on the table's constraints the guard is
equivalent to the source's loop condition. -/
def wrapIntoAbove (lo w v : ℚ) : ℚ :=
  if h : 0 < w ∧ v < lo then wrapIntoAbove lo w (v + w) else v
termination_by (⌈(lo - v) / w⌉).toNat
decreasing_by
  obtain ⟨hw, hv⟩ := h
  rw [show lo - (v + w) = (lo - v) - w by ring,
    show (lo - v - w) / w = (lo - v) / w - 1 by
      rw [sub_div, div_self (ne_of_gt hw)],
    Int.ceil_sub_one]
  have hpos : 0 < ⌈(lo - v) / w⌉ := Int.ceil_pos.mpr (div_pos (by linarith) hw)
  omega

/-- `while (value > constraint.max) value -= (constraint.max - constraint.min)`. -/
def wrapIntoBelow (hi w v : ℚ) : ℚ :=
  if h : 0 < w ∧ hi < v then wrapIntoBelow hi w (v - w) else v
termination_by (⌈(v - hi) / w⌉).toNat
decreasing_by
  obtain ⟨hw, hv⟩ := h
  rw [show v - w - hi = (v - hi) - w by ring,
    show (v - hi - w) / w = (v - hi) / w - 1 by
      rw [sub_div, div_self (ne_of_gt hw)],
    Int.ceil_sub_one]
  have hpos : 0 < ⌈(v - hi) / w⌉ := Int.ceil_pos.mpr (div_pos (by linarith) hw)
  omega

/-- `constrainParameter(param, value)`: unconstrained parameters pass
through; wrap parameters run both wrap loops; bounded parameters are clamped
by `Math.max(min, Math.min(max, value))`. -/
def constrainParameter (p : ParamId) (v : ℚ) : ℚ :=
  match constraintOf p with
  | Option.none => v
  | Option.some c =>
      if c.wrap then wrapIntoBelow c.hi (c.hi - c.lo) (wrapIntoAbove c.lo (c.hi - c.lo) v)
      else max c.lo (min c.hi v)

/-- `this.smoothingFactors.rotations`. -/
def smoothingFactorsRotations : ℚ := 15/100

/-- `this.smoothingFactors.core`. -/
def smoothingFactorsCore : ℚ := 8/100

/-- `this.smoothingFactors.color`. -/
def smoothingFactorsColor : ℚ := 12/100

/-- `this.smoothingFactors.advanced`. -/
def smoothingFactorsAdvanced : ℚ := 10/100

/-- `param.startsWith('rot4d')` on the registered parameter ids. -/
def isRot4d : ParamId → Bool := fun p =>
  match p with
  | ParamId.rot4dXW => true
  | ParamId.rot4dYW => true
  | ParamId.rot4dZW => true
  | ParamId.rot4dXY => true
  | ParamId.rot4dXZ => true
  | ParamId.rot4dYZ => true
  | _ => false

/-- The per-parameter smoothing factor selection in `smoothParameters`. -/
def smoothingFactorOf (p : ParamId) : ℚ :=
  if isRot4d p then smoothingFactorsRotations
  else if p ∈ [ParamId.hue, ParamId.intensity, ParamId.saturation] then
    smoothingFactorsColor
  else if p ∈ [ParamId.geometry, ParamId.gridDensity, ParamId.morphFactor,
      ParamId.chaos, ParamId.speed, ParamId.scale] then
    smoothingFactorsCore
  else smoothingFactorsAdvanced

/-- Step 1 of the tick: `this.parameters[param].reactive = 0` for all params. -/
def resetReactive (s : Store) : Store := fun p => { s p with reactive := 0 }

/-- Steps 2-4 of the tick abstracted: all signal-source and breathing
contributions of the frame accumulate additively into `reactive`. -/
def addContrib (c : ParamId → ℚ) (s : Store) : Store := fun p =>
  { s p with reactive := (s p).reactive + c p }

/-- `applyParameterRelationships()`: `value = constrain(base + reactive)`. -/
def applyParameterRelationships (s : Store) : Store := fun p =>
  { s p with value := constrainParameter p ((s p).base + (s p).reactive) }

/-- `smoothParameters()`: exponential smoothing
`smoothed += (value - smoothed) * factor`. -/
def smoothParameters (s : Store) : Store := fun p =>
  { s p with
      smoothed := (s p).smoothed + ((s p).value - (s p).smoothed) * smoothingFactorOf p }

/-- One frame of `processReactivity` with the frame's reactive
contributions given by `c`. -/
def tick (c : ParamId → ℚ) (s : Store) : Store :=
  smoothParameters (applyParameterRelationships (addContrib c (resetReactive s)))

/-- The snapshot sent to the update callback: the `smoothed` fields. -/
def snapshot (s : Store) : ParamId → ℚ := fun p => (s p).smoothed

/-- Run a sequence of ticks from the initial store. -/
def tickSeq (cs : List (ParamId → ℚ)) : Store :=
  cs.foldl (fun s c => tick c s) initialParameters

/-- The six rotation axes of `TouchGyroscope6D.rotations`. -/
inductive Axis6 where
  | xw | yw | zw | xy | xz | yz
deriving DecidableEq

/-- Per-axis dampening factors from `this.rotationEffects`. -/
def dampeningOf : Axis6 → ℚ := fun a =>
  match a with
  | Axis6.xw => 95/100
  | Axis6.yw => 93/100
  | Axis6.zw => 97/100
  | Axis6.xy => 98/100
  | Axis6.xz => 96/100
  | Axis6.yz => 90/100

/-- One dampening frame:
`this.rotations[axis] *= this.rotationEffects[axis].dampening`. -/
def dampStep (r : Axis6 → ℚ) : Axis6 → ℚ := fun a => r a * dampeningOf a

/-- `Object.values(this.rotations).reduce((sum, val) => sum + Math.abs(val), 0)`. -/
def totalRotation (r : Axis6 → ℚ) : ℚ :=
  |r Axis6.xw| + |r Axis6.yw| + |r Axis6.zw| + |r Axis6.xy| + |r Axis6.xz| + |r Axis6.yz|

/-- `applyTouchMomentum` with an active system: one dampening frame runs
unconditionally, then further frames are scheduled while
`totalRotation > 0.001`.  The argument counts how many *further* frames may
run: `Option.none` means the loop was still requesting frames when the
budget ran out, `Option.some` is the rotation state at which the loop
stopped scheduling. -/
def momentumRun : ℕ → (Axis6 → ℚ) → Option (Axis6 → ℚ)
  | 0, r =>
      let r2 := dampStep r
      if totalRotation r2 > 1/1000 then Option.none else Option.some r2
  | Nat.succ n, r =>
      let r2 := dampStep r
      if totalRotation r2 > 1/1000 then momentumRun n r2 else Option.some r2

/-- A JavaScript IEEE-754 double, with the float rounding of finite values
abstracted to exact rationals: NaN, the two infinities, or a finite value. -/
inductive JSNum where
  | nan
  | posInf
  | negInf
  | fin (q : ℚ)
deriving DecidableEq

/-- JavaScript `-x`. -/
def jsNeg : JSNum → JSNum
  | JSNum.nan => JSNum.nan
  | JSNum.posInf => JSNum.negInf
  | JSNum.negInf => JSNum.posInf
  | JSNum.fin q => JSNum.fin (-q)

/-- JavaScript `x + y`. -/
def jsAdd : JSNum → JSNum → JSNum
  | JSNum.nan, _ => JSNum.nan
  | _, JSNum.nan => JSNum.nan
  | JSNum.posInf, JSNum.negInf => JSNum.nan
  | JSNum.negInf, JSNum.posInf => JSNum.nan
  | JSNum.posInf, _ => JSNum.posInf
  | _, JSNum.posInf => JSNum.posInf
  | JSNum.negInf, _ => JSNum.negInf
  | _, JSNum.negInf => JSNum.negInf
  | JSNum.fin a, JSNum.fin b => JSNum.fin (a + b)

/-- JavaScript `x - y`. -/
def jsSub (a b : JSNum) : JSNum := jsAdd a (jsNeg b)

/-- JavaScript `x * y`. -/
def jsMul : JSNum → JSNum → JSNum
  | JSNum.nan, _ => JSNum.nan
  | _, JSNum.nan => JSNum.nan
  | JSNum.posInf, JSNum.posInf => JSNum.posInf
  | JSNum.posInf, JSNum.negInf => JSNum.negInf
  | JSNum.negInf, JSNum.posInf => JSNum.negInf
  | JSNum.negInf, JSNum.negInf => JSNum.posInf
  | JSNum.posInf, JSNum.fin b =>
      if b = 0 then JSNum.nan else if 0 < b then JSNum.posInf else JSNum.negInf
  | JSNum.fin a, JSNum.posInf =>
      if a = 0 then JSNum.nan else if 0 < a then JSNum.posInf else JSNum.negInf
  | JSNum.negInf, JSNum.fin b =>
      if b = 0 then JSNum.nan else if 0 < b then JSNum.negInf else JSNum.posInf
  | JSNum.fin a, JSNum.negInf =>
      if a = 0 then JSNum.nan else if 0 < a then JSNum.negInf else JSNum.posInf
  | JSNum.fin a, JSNum.fin b => JSNum.fin (a * b)

/-- JavaScript `x < y` (false whenever either side is NaN). -/
def jsLtB : JSNum → JSNum → Bool
  | JSNum.nan, _ => false
  | _, JSNum.nan => false
  | JSNum.negInf, JSNum.negInf => false
  | JSNum.negInf, _ => true
  | _, JSNum.negInf => false
  | JSNum.posInf, _ => false
  | JSNum.fin _, JSNum.posInf => true
  | JSNum.fin a, JSNum.fin b => decide (a < b)

/-- JavaScript `Math.min(x, y)` (NaN if either argument is NaN). -/
def jsMin : JSNum → JSNum → JSNum
  | JSNum.nan, _ => JSNum.nan
  | _, JSNum.nan => JSNum.nan
  | a, b => if jsLtB a b then a else b

/-- JavaScript `Math.max(x, y)` (NaN if either argument is NaN). -/
def jsMax : JSNum → JSNum → JSNum
  | JSNum.nan, _ => JSNum.nan
  | _, JSNum.nan => JSNum.nan
  | a, b => if jsLtB a b then b else a

/-- The `while (value < min)` wrap loop over JavaScript numbers, with a fuel
bound on the number of loop iterations: `Option.none` means the loop was
still running when the fuel ran out. -/
def wrapUpJS (lo w : JSNum) : ℕ → JSNum → Option JSNum
  | 0, v => if jsLtB v lo then Option.none else Option.some v
  | Nat.succ n, v => if jsLtB v lo then wrapUpJS lo w n (jsAdd v w) else Option.some v

/-- The `while (value > max)` wrap loop over JavaScript numbers, fueled. -/
def wrapDownJS (hi w : JSNum) : ℕ → JSNum → Option JSNum
  | 0, v => if jsLtB hi v then Option.none else Option.some v
  | Nat.succ n, v => if jsLtB hi v then wrapDownJS hi w n (jsSub v w) else Option.some v

/-- `constrainParameter` over JavaScript numbers: each wrap loop may run at
most `fuel` iterations; `Option.none` means the function was still looping. -/
def constrainParameterJS (fuel : ℕ) (p : ParamId) (v : JSNum) : Option JSNum :=
  match constraintOf p with
  | Option.none => Option.some v
  | Option.some c =>
      if c.wrap then
        match wrapUpJS (JSNum.fin c.lo) (JSNum.fin (c.hi - c.lo)) fuel v with
        | Option.none => Option.none
        | Option.some v1 => wrapDownJS (JSNum.fin c.hi) (JSNum.fin (c.hi - c.lo)) fuel v1
      else Option.some (jsMax (JSNum.fin c.lo) (jsMin (JSNum.fin c.hi) v))

/-- Per-parameter state over JavaScript numbers. -/
structure JSParamState where
  value : JSNum
  base : JSNum
  reactive : JSNum
  smoothed : JSNum
deriving DecidableEq

/-- Steps 1, 5 and 6 of the tick for a single parameter, over JavaScript
numbers: the reactive accumulator is reset and receives the frame's
contribution `contrib`, then `value = constrain(base + reactive)` and
`smoothed += (value - smoothed) * factor`.  No NaN / Infinity check exists
anywhere on this path. -/
def tickParamJS (fuel : ℕ) (p : ParamId) (contrib : JSNum) (st : JSParamState) :
    Option JSParamState :=
  match constrainParameterJS fuel p (jsAdd st.base contrib) with
  | Option.none => Option.none
  | Option.some v =>
      Option.some
        { value := v
          base := st.base
          reactive := contrib
          smoothed :=
            jsAdd st.smoothed (jsMul (jsSub v st.smoothed) (JSNum.fin (smoothingFactorOf p))) }

/-- The proposition that the constraint policy, applied to the wrap
parameter `hue` at raw value `+Infinity`, is still inside its wrap loop
after every number of iterations — i.e. the `while (value > max)` loop
never terminates on that input. -/
def constrainJSDivergesAtHuePosInf : Prop :=
  ∀ n : ℕ, constrainParameterJS n ParamId.hue JSNum.posInf = Option.none

theorem wrapIntoAbove_ge (lo w v : ℚ) (hw : 0 < w) : lo ≤ wrapIntoAbove lo w v := by
  refine wrapIntoAbove.induct lo w (fun u => lo ≤ wrapIntoAbove lo w u) ?_ ?_ v
  · intro x h ih
    rw [wrapIntoAbove, dif_pos h]
    exact ih
  · intro x h
    rw [wrapIntoAbove, dif_neg h]
    push_neg at h
    exact h hw

theorem wrapIntoAbove_addmul (lo w v : ℚ) : ∃ k : ℕ, wrapIntoAbove lo w v = v + k * w := by
  refine wrapIntoAbove.induct lo w (fun u => ∃ k : ℕ, wrapIntoAbove lo w u = u + k * w) ?_ ?_ v
  · intro x h ih
    obtain ⟨k, hk⟩ := ih
    refine ⟨k + 1, ?_⟩
    rw [wrapIntoAbove, dif_pos h, hk]
    push_cast
    ring
  · intro x h
    exact ⟨0, by rw [wrapIntoAbove, dif_neg h]; push_cast; ring⟩

theorem wrapIntoAbove_eq_self (lo w v : ℚ) (h : ¬ v < lo) : wrapIntoAbove lo w v = v := by
  rw [wrapIntoAbove, dif_neg fun hc => h hc.2]

theorem wrapIntoBelow_le (hi w v : ℚ) (hw : 0 < w) : wrapIntoBelow hi w v ≤ hi := by
  refine wrapIntoBelow.induct hi w (fun u => wrapIntoBelow hi w u ≤ hi) ?_ ?_ v
  · intro x h ih
    rw [wrapIntoBelow, dif_pos h]
    exact ih
  · intro x h
    rw [wrapIntoBelow, dif_neg h]
    push_neg at h
    exact h hw

theorem wrapIntoBelow_submul (hi w v : ℚ) : ∃ k : ℕ, wrapIntoBelow hi w v = v - k * w := by
  refine wrapIntoBelow.induct hi w (fun u => ∃ k : ℕ, wrapIntoBelow hi w u = u - k * w) ?_ ?_ v
  · intro x h ih
    obtain ⟨k, hk⟩ := ih
    refine ⟨k + 1, ?_⟩
    rw [wrapIntoBelow, dif_pos h, hk]
    push_cast
    ring
  · intro x h
    exact ⟨0, by rw [wrapIntoBelow, dif_neg h]; push_cast; ring⟩

theorem wrapIntoBelow_lower (hi w v : ℚ) (hv : hi - w ≤ v) :
    hi - w ≤ wrapIntoBelow hi w v := by
  refine wrapIntoBelow.induct hi w (fun u => hi - w ≤ u → hi - w ≤ wrapIntoBelow hi w u) ?_ ?_ v hv
  · intro x h ih _hx
    rw [wrapIntoBelow, dif_pos h]
    exact ih (by linarith [h.2])
  · intro x h hx
    rw [wrapIntoBelow, dif_neg h]
    exact hx

theorem wrapIntoBelow_eq_self (hi w v : ℚ) (h : ¬ hi < v) : wrapIntoBelow hi w v = v := by
  rw [wrapIntoBelow, dif_neg fun hc => h hc.2]

theorem constraint_lo_le_hi (p : ParamId) (c : Constraint)
    (h : constraintOf p = Option.some c) : c.lo ≤ c.hi := by
  cases p <;> simp [constraintOf] at h <;> rw [← h] <;> norm_num

theorem constraint_wrap_width_pos (p : ParamId) (c : Constraint)
    (h : constraintOf p = Option.some c) (hw : c.wrap = true) : 0 < c.hi - c.lo := by
  cases p <;> simp [constraintOf] at h <;> rw [← h] at hw ⊢ <;> first
    | norm_num
    | simp at hw

/-- Core range/congruence fact about `constrainParameter` on finite input. -/
theorem constrain_mem_aux (p : ParamId) (c : Constraint) (v : ℚ)
    (h : constraintOf p = Option.some c) :
    c.lo ≤ constrainParameter p v ∧ constrainParameter p v ≤ c.hi ∧
      (c.wrap = true → ∃ k : ℤ, constrainParameter p v = v + k * (c.hi - c.lo)) := by
  have hle : c.lo ≤ c.hi := constraint_lo_le_hi p c h
  simp only [constrainParameter, h]
  by_cases hw : c.wrap
  · have hpos : 0 < c.hi - c.lo := constraint_wrap_width_pos p c h hw
    rw [if_pos hw]
    have h1 : c.lo ≤ wrapIntoAbove c.lo (c.hi - c.lo) v :=
      wrapIntoAbove_ge c.lo (c.hi - c.lo) v hpos
    have h2 : wrapIntoBelow c.hi (c.hi - c.lo) (wrapIntoAbove c.lo (c.hi - c.lo) v) ≤ c.hi :=
      wrapIntoBelow_le c.hi (c.hi - c.lo) _ hpos
    have h3 : c.hi - (c.hi - c.lo) ≤ wrapIntoBelow c.hi (c.hi - c.lo)
        (wrapIntoAbove c.lo (c.hi - c.lo) v) :=
      wrapIntoBelow_lower c.hi (c.hi - c.lo) _ (by linarith)
    refine ⟨by linarith, h2, fun _ => ?_⟩
    obtain ⟨k1, hk1⟩ := wrapIntoAbove_addmul c.lo (c.hi - c.lo) v
    obtain ⟨k2, hk2⟩ := wrapIntoBelow_submul c.hi (c.hi - c.lo)
      (wrapIntoAbove c.lo (c.hi - c.lo) v)
    refine ⟨(k1 : ℤ) - k2, ?_⟩
    rw [hk2, hk1]
    push_cast
    ring
  · rw [if_neg hw]
    refine ⟨le_max_left _ _, max_le hle (min_le_left _ _), fun hc => absurd hc hw⟩

/-- Claim C1 (amended): after step 5 of a tick with finite base and reactive,
the value of every constrained parameter lies in the closed interval
`[min, max]` — for wrap parameters the result is normalized by an integer
multiple of the range width into `[min, max]`, where the upper endpoint
`max` itself is attainable (the half-open interval `[min, max)` of the
original claim is not guaranteed). -/
theorem constrainParameter_mem (p : ParamId) (c : Constraint) (v : ℚ)
    (h : constraintOf p = Option.some c) :
    c.lo ≤ constrainParameter p v ∧ constrainParameter p v ≤ c.hi ∧
      (c.wrap = true → ∃ k : ℤ, constrainParameter p v = v + k * (c.hi - c.lo)) :=
  constrain_mem_aux p c v h

/-- Witness for the amended C1 theorem: the `chaos` parameter,
base 0.2 with an extreme reactive +5 (spec Scenario C), clamps into [0, 1]. -/
theorem constrainParameter_mem_witness :
    (0 : ℚ) ≤ constrainParameter ParamId.chaos (1/5 + 5) ∧
      constrainParameter ParamId.chaos (1/5 + 5) ≤ 1 := by
  have h := constrainParameter_mem ParamId.chaos ⟨0, 1, false⟩ (1/5 + 5) rfl
  exact ⟨h.1, h.2.1⟩

/-- Claim C1 counterexample: the wrap branch uses `while (value > max)`, so
a raw value of exactly 360 (finite base 200 plus finite reactive 160) is
returned unchanged — it is *not* wrap-normalized into `[0, 360)`. -/
theorem constrainParameter_hue_360 :
    constrainParameter ParamId.hue (200 + 160) = 360 ∧
      ¬ constrainParameter ParamId.hue (200 + 160) < 360 := by
  have h360 : (360 : ℚ) - 0 = 360 := by norm_num
  have hv : (200 : ℚ) + 160 = 360 := by norm_num
  have h1 : constrainParameter ParamId.hue (200 + 160) = 360 := by
    show wrapIntoBelow 360 (360 - 0) (wrapIntoAbove 0 (360 - 0) (200 + 160)) = 360
    rw [h360, hv, wrapIntoAbove_eq_self 0 360 360 (by norm_num),
      wrapIntoBelow_eq_self 360 360 360 (by norm_num)]
  exact ⟨h1, by rw [h1]; norm_num⟩

theorem constrain_hue_bounds (v : ℚ) :
    0 ≤ constrainParameter ParamId.hue v ∧ constrainParameter ParamId.hue v ≤ 360 := by
  have h := constrain_mem_aux ParamId.hue ⟨0, 360, true⟩ v rfl
  exact ⟨h.1, h.2.1⟩

theorem smoothingFactorOf_hue : smoothingFactorOf ParamId.hue = 12/100 := by
  simp [smoothingFactorOf, isRot4d, smoothingFactorsColor]

theorem tick_hue_inv (c : ParamId → ℚ) (s : Store)
    (hb : (s ParamId.hue).base = 200)
    (h0 : 0 ≤ (s ParamId.hue).smoothed)
    (h1 : (s ParamId.hue).smoothed < 360) :
    ((tick c s) ParamId.hue).base = 200 ∧
      0 ≤ ((tick c s) ParamId.hue).smoothed ∧
      ((tick c s) ParamId.hue).smoothed < 360 := by
  obtain ⟨hv0, hv360⟩ := constrain_hue_bounds ((s ParamId.hue).base + (0 + c ParamId.hue))
  simp only [tick, smoothParameters, applyParameterRelationships, addContrib, resetReactive,
    smoothingFactorOf_hue]
  exact ⟨hb, by linarith, by linarith⟩

theorem tickSeq_hue_inv (cs : List (ParamId → ℚ)) :
    ∀ s : Store,
      (s ParamId.hue).base = 200 →
      0 ≤ (s ParamId.hue).smoothed →
      (s ParamId.hue).smoothed < 360 →
      ((cs.foldl (fun s c => tick c s) s) ParamId.hue).base = 200 ∧
        0 ≤ ((cs.foldl (fun s c => tick c s) s) ParamId.hue).smoothed ∧
        ((cs.foldl (fun s c => tick c s) s) ParamId.hue).smoothed < 360 := by
  induction cs with
  | nil => intro s hb h0 h1; exact ⟨hb, h0, h1⟩
  | cons c cs ih =>
      intro s hb h0 h1
      obtain ⟨hb2, h02, h12⟩ := tick_hue_inv c s hb h0 h1
      exact ih (tick c s) hb2 h02 h12

/-- Claim C2: the hue parameter (wrap constraint min 0, max 360, initial
smoothed 200), under any sequence of ticks with finite reactive
contributions of arbitrary magnitude, always has its emitted snapshot value
in `[0, 360)`. -/
theorem snapshot_hue_range (cs : List (ParamId → ℚ)) :
    0 ≤ snapshot (tickSeq cs) ParamId.hue ∧ snapshot (tickSeq cs) ParamId.hue < 360 := by
  have h := tickSeq_hue_inv cs initialParameters rfl (by norm_num [initialParameters])
    (by norm_num [initialParameters])
  exact ⟨h.2.1, h.2.2⟩

theorem foldl_updateReactive (l : List ParamId) (f : ParamId → ℚ) (s : Store) (p : ParamId) :
    ((l.foldl (fun st q => updateReactive st q (f q)) s) p).reactive
      = (s p).reactive + (l.count p : ℚ) * f p := by
  induction l generalizing s with
  | nil => simp
  | cons q l ih =>
      rw [List.foldl_cons, ih (updateReactive s q (f q))]
      simp only [updateReactive, List.count_cons]
      by_cases hqp : p = q
      · subst hqp
        simp
        push_cast
        ring
      · simp [hqp]
        exact Or.inl (Ne.symm hqp)

theorem applyRelationship_reactive (tbl : String → Option Relationship) (name : String)
    (i : ℚ) (s : Store) (p : ParamId) :
    ((applyRelationship tbl name i s) p).reactive = (s p).reactive + relDelta tbl name i p := by
  unfold applyRelationship relDelta
  cases h : tbl name with
  | none => simp
  | some rel =>
      simp only []
      rw [foldl_updateReactive rel.negative (fun q => -(i * negMulOf rel q)),
        foldl_updateReactive rel.positive (fun q => i * posMulOf rel q)]
      ring

/-- Claim C3: relationship application is additive — for any two
relationships and any shared target parameter, applying both in the same
frame (in either order) changes the reactive accumulator by exactly the sum
of the changes each causes alone. -/
theorem applyRelationship_additive (tbl : String → Option Relationship)
    (a b : String) (i j : ℚ) (s : Store) (p : ParamId) :
    (((applyRelationship tbl b j (applyRelationship tbl a i s)) p).reactive
        = (s p).reactive
          + (((applyRelationship tbl a i s) p).reactive - (s p).reactive)
          + (((applyRelationship tbl b j s) p).reactive - (s p).reactive))
    ∧ (((applyRelationship tbl a i (applyRelationship tbl b j s)) p).reactive
        = (s p).reactive
          + (((applyRelationship tbl a i s) p).reactive - (s p).reactive)
          + (((applyRelationship tbl b j s) p).reactive - (s p).reactive)) := by
  constructor <;> simp only [applyRelationship_reactive] <;> ring

/-- Claim C10: `applyRelationship` with a signal name that has no entry in
the relationship table is a silent no-op: the whole store (hence every
parameter's base, reactive, value and smoothed field) is unchanged, for
every intensity. -/
theorem applyRelationship_unknown_noop (tbl : String → Option Relationship)
    (name : String) (i : ℚ) (s : Store) (h : tbl name = Option.none) :
    applyRelationship tbl name i s = s := by
  unfold applyRelationship
  rw [h]

/-- Witness for C10: the name `unknownSignal` is absent from the
constructor's relationship table, and applying it changes nothing. -/
theorem applyRelationship_unknown_noop_witness :
    applyRelationship relationships "unknownSignal" 7 initialParameters = initialParameters :=
  applyRelationship_unknown_noop relationships "unknownSignal" 7 initialParameters rfl

/-- Claim C6 (amended): one `applyRelationship` call adds, per occurrence of
`p` in the positive target list, `intensity * m` to `p`'s reactive
accumulator and subtracts, per occurrence in the negative list,
`intensity * |m|` — where `m` falls back to `1.0` not only when the
multiplier table has no entry for `p` but also when the listed multiplier is
exactly `0` (JavaScript `|| 1.0` treats `0` as falsy), so a specified `0`
multiplier is *not* used as given. -/
theorem applyRelationship_multiplier_rule (tbl : String → Option Relationship)
    (name : String) (rel : Relationship) (i : ℚ) (s : Store) (p : ParamId)
    (h : tbl name = Option.some rel) :
    ((applyRelationship tbl name i s) p).reactive
      = (s p).reactive
        + (rel.positive.count p : ℚ) *
            (i * (match rel.multipliers p with
                  | Option.none => 1
                  | Option.some m => if m = 0 then 1 else m))
        - (rel.negative.count p : ℚ) *
            (i * (match rel.multipliers p with
                  | Option.none => 1
                  | Option.some m => if |m| = 0 then 1 else |m|)) := by
  rw [applyRelationship_reactive]
  unfold relDelta
  rw [h]
  unfold posMulOf negMulOf
  ring

/-- Witness for the amended C6 theorem: `audioHigh` at intensity 1 adds
`1 * 50 = 50` to the hue accumulator of the initial store. -/
theorem applyRelationship_multiplier_rule_witness :
    ((applyRelationship relationships "audioHigh" 1 initialParameters) ParamId.hue).reactive
      = 50 := by
  have h := applyRelationship_multiplier_rule relationships "audioHigh" audioHigh 1
    initialParameters ParamId.hue rfl
  rw [h]
  norm_num [audioHigh, initialParameters, List.count_cons, List.count_nil]
  simp

/-- Claim C6 counterexample: after `configureRelationship` sets the `scale`
multiplier of `audioBass` to the explicit value `0`, applying `audioBass`
at intensity 1 still adds `1 * 1 = 1` to scale's reactive accumulator —
the specified multiplier `0` is replaced by the default `1.0`, contradicting
"a specified multiplier, including 0, is used as given". -/
theorem applyRelationship_zero_multiplier_cex :
    ((applyRelationship
        (configureRelationship relationships "audioBass"
          (fun p => match p with | ParamId.scale => Option.some 0 | _ => Option.none))
        "audioBass" 1 initialParameters) ParamId.scale).reactive = 1 ∧
    ((applyRelationship
        (configureRelationship relationships "audioBass"
          (fun p => match p with | ParamId.scale => Option.some 0 | _ => Option.none))
        "audioBass" 1 initialParameters) ParamId.scale).reactive
      ≠ (initialParameters ParamId.scale).reactive + 1 * 0 := by
  have h : (configureRelationship relationships "audioBass"
      (fun p => match p with | ParamId.scale => Option.some 0 | _ => Option.none)) "audioBass"
      = Option.some { audioBass with
          multipliers := fun p =>
            match (match p with | ParamId.scale => Option.some (0:ℚ) | _ => Option.none) with
            | Option.some m => Option.some m
            | Option.none => audioBass.multipliers p } := rfl
  have h1 : ((applyRelationship
      (configureRelationship relationships "audioBass"
        (fun p => match p with | ParamId.scale => Option.some 0 | _ => Option.none))
      "audioBass" 1 initialParameters) ParamId.scale).reactive = 1 := by
    rw [applyRelationship_reactive]
    unfold relDelta
    rw [h]
    norm_num [audioBass, posMulOf, negMulOf, initialParameters, List.count_cons, List.count_nil]
    simp
  exact ⟨h1, by rw [h1]; norm_num [initialParameters]⟩

/-- Claim C5 counterexample: the rotation category factor (0.15) is the
*largest* of the four smoothing constants, not the smallest — it is not
slower than core (0.08), and the color factor (0.12) is not larger than the
rotation factor. -/
theorem smoothingFactors_order_cex :
    ¬ (smoothingFactorsRotations ≤ smoothingFactorsCore) ∧
      ¬ (smoothingFactorsRotations < smoothingFactorsColor) := by
  norm_num [smoothingFactorsRotations, smoothingFactorsCore, smoothingFactorsColor]

/-- Claim C5 (amended): the smoother computes
`newSmoothed = previousSmoothed + (target - previousSmoothed) * factor(category)`
with a fixed constant per category, but the ordering of the constants is the
reverse of the claimed one: core (0.08) < advanced (0.10) < color (0.12) <
rotations (0.15), so rotation-type parameters use the *fastest* factor and
the color factor is *slower* than the rotation factor. -/
theorem smoothParameters_formula :
    (∀ (s : Store) (p : ParamId),
        ((smoothParameters s) p).smoothed
          = (s p).smoothed + ((s p).value - (s p).smoothed) * smoothingFactorOf p) ∧
      smoothingFactorsCore < smoothingFactorsAdvanced ∧
      smoothingFactorsAdvanced < smoothingFactorsColor ∧
      smoothingFactorsColor < smoothingFactorsRotations := by
  refine ⟨fun s p => rfl, ?_, ?_, ?_⟩ <;>
    norm_num [smoothingFactorsRotations, smoothingFactorsCore, smoothingFactorsColor,
      smoothingFactorsAdvanced]

/-- Claim C9: Scenario A — hue base 200, smoothed 200; applying `audioHigh`
(hue multiplier 50) once at intensity 1.0 with no other hue contributions
yields hue reactive 50, hue value 250, and hue smoothed
`200 + 0.12 * (250 - 200) = 206` via the color smoothing factor 0.12. -/
theorem scenarioA_hue :
    ((applyRelationship relationships "audioHigh" 1 (resetReactive initialParameters))
        ParamId.hue).reactive = 50 ∧
      ((applyParameterRelationships (applyRelationship relationships "audioHigh" 1
          (resetReactive initialParameters))) ParamId.hue).value = 250 ∧
      ((smoothParameters (applyParameterRelationships (applyRelationship relationships
          "audioHigh" 1 (resetReactive initialParameters)))) ParamId.hue).smoothed = 206 := by
  have hrel : relationships "audioHigh" = Option.some audioHigh := rfl
  have h1 : (applyRelationship relationships "audioHigh" 1 (resetReactive initialParameters))
      ParamId.hue = ⟨200, 200, 50, 200⟩ := by
    simp [applyRelationship, hrel, audioHigh, updateReactive, posMulOf, negMulOf,
      resetReactive, initialParameters]
  have hc : constrainParameter ParamId.hue ((200 : ℚ) + 50) = 250 := by
    show wrapIntoBelow 360 (360 - 0) (wrapIntoAbove 0 (360 - 0) ((200 : ℚ) + 50)) = 250
    have e1 : (200 : ℚ) + 50 = 250 := by norm_num
    have e2 : (360 : ℚ) - 0 = 360 := by norm_num
    rw [e2, e1, wrapIntoAbove_eq_self 0 360 250 (by norm_num),
      wrapIntoBelow_eq_self 360 360 250 (by norm_num)]
  have h2 : (applyParameterRelationships (applyRelationship relationships "audioHigh" 1
      (resetReactive initialParameters))) ParamId.hue = ⟨250, 200, 50, 200⟩ := by
    simp [applyParameterRelationships, h1, hc]
  have h3 : ((smoothParameters (applyParameterRelationships (applyRelationship relationships
      "audioHigh" 1 (resetReactive initialParameters)))) ParamId.hue).smoothed = 206 := by
    simp [smoothParameters, h2, smoothingFactorOf_hue]
    norm_num
  exact ⟨by rw [h1], by rw [h2], h3⟩

theorem totalRotation_nonneg (r : Axis6 → ℚ) : 0 ≤ totalRotation r := by
  unfold totalRotation
  positivity

theorem dampStep_total_le (r : Axis6 → ℚ) :
    totalRotation (dampStep r) ≤ (98/100) * totalRotation r := by
  have key : ∀ a : Axis6, |dampStep r a| ≤ (98/100) * |r a| := by
    intro a
    have h1 : 0 < dampeningOf a ∧ dampeningOf a ≤ 98/100 := by
      cases a <;> norm_num [dampeningOf]
    rw [show dampStep r a = r a * dampeningOf a from rfl, abs_mul, abs_of_pos h1.1]
    have h0 := abs_nonneg (r a)
    nlinarith [h1.2]
  have h1 := key Axis6.xw
  have h2 := key Axis6.yw
  have h3 := key Axis6.zw
  have h4 := key Axis6.xy
  have h5 := key Axis6.xz
  have h6 := key Axis6.yz
  unfold totalRotation at *
  linarith

theorem iterate_total_le (r : Axis6 → ℚ) (n : ℕ) :
    totalRotation (dampStep^[n] r) ≤ (98/100)^n * totalRotation r := by
  induction n with
  | zero => simp
  | succ n ih =>
      rw [Function.iterate_succ_apply']
      calc totalRotation (dampStep (dampStep^[n] r))
          ≤ (98/100) * totalRotation (dampStep^[n] r) := dampStep_total_le _
        _ ≤ (98/100) * ((98/100)^n * totalRotation r) := by
            have := mul_le_mul_of_nonneg_left ih (by norm_num : (0:ℚ) ≤ 98/100)
            linarith
        _ = (98/100)^(n+1) * totalRotation r := by rw [pow_succ]; ring

theorem momentumRun_some_of_total (n : ℕ) :
    ∀ r : Axis6 → ℚ, totalRotation (dampStep^[n+1] r) ≤ 1/1000 →
      ∃ rf : Axis6 → ℚ, momentumRun n r = Option.some rf := by
  induction n with
  | zero =>
      intro r h
      rw [Function.iterate_one] at h
      exact ⟨dampStep r, by simp only [momentumRun]; rw [if_neg (not_lt.mpr h)]⟩
  | succ n ih =>
      intro r h
      by_cases hg : totalRotation (dampStep r) > 1/1000
      · have h2 : totalRotation (dampStep^[n+1] (dampStep r)) ≤ 1/1000 := by
          rw [← Function.iterate_succ_apply]
          exact h
        obtain ⟨rf, hrf⟩ := ih (dampStep r) h2
        exact ⟨rf, by simp only [momentumRun]; rw [if_pos hg]; exact hrf⟩
      · exact ⟨dampStep r, by simp only [momentumRun]; rw [if_neg hg]⟩

theorem momentumRun_total_le (n : ℕ) :
    ∀ r rf : Axis6 → ℚ, momentumRun n r = Option.some rf → totalRotation rf ≤ 1/1000 := by
  induction n with
  | zero =>
      intro r rf h
      simp only [momentumRun] at h
      by_cases hg : totalRotation (dampStep r) > 1/1000
      · rw [if_pos hg] at h
        exact absurd h (by simp)
      · rw [if_neg hg] at h
        cases h
        exact not_lt.mp hg
  | succ n ih =>
      intro r rf h
      simp only [momentumRun] at h
      by_cases hg : totalRotation (dampStep r) > 1/1000
      · rw [if_pos hg] at h
        exact ih _ _ h
      · rw [if_neg hg] at h
        cases h
        exact not_lt.mp hg

/-- Claim C4 (amended): after release, each rotation delta is multiplied by
its dampening factor (all in (0,1)) every frame, so the magnitudes strictly
decrease while nonzero, and the dampening loop stops scheduling frames in
finite time (once `totalRotation` is at most the 0.001 threshold); but when
it stops, the deltas are left *frozen at their final dampened values* — in
general nonzero — rather than being set exactly to zero. -/
theorem momentum_decay :
    (∀ (r : Axis6 → ℚ) (a : Axis6), r a ≠ 0 → |dampStep r a| < |r a|) ∧
      (∀ r : Axis6 → ℚ, ∃ (n : ℕ) (rf : Axis6 → ℚ), momentumRun n r = Option.some rf) ∧
      (∀ (n : ℕ) (r rf : Axis6 → ℚ), momentumRun n r = Option.some rf →
        totalRotation rf ≤ 1/1000) := by
  refine ⟨?_, ?_, fun n => momentumRun_total_le n⟩
  · intro r a h
    have hd : 0 < dampeningOf a ∧ dampeningOf a < 1 := by
      cases a <;> norm_num [dampeningOf]
    rw [show dampStep r a = r a * dampeningOf a from rfl, abs_mul, abs_of_pos hd.1]
    have h0 : 0 < |r a| := abs_pos.mpr h
    nlinarith [hd.2]
  · intro r
    have hT : 0 ≤ totalRotation r := totalRotation_nonneg r
    obtain ⟨k, hk⟩ := exists_pow_lt_of_lt_one
      (show (0:ℚ) < 1/1000 / (totalRotation r + 1) by positivity)
      (show (98/100 : ℚ) < 1 by norm_num)
    have hk2 : (98/100 : ℚ)^k * (totalRotation r + 1) < 1/1000 :=
      (lt_div_iff₀ (by linarith)).mp hk
    have hb : totalRotation (dampStep^[k+1] r) ≤ 1/1000 := by
      have h1 := iterate_total_le r (k+1)
      have h2 : ((98:ℚ)/100)^(k+1) ≤ (98/100)^k :=
        pow_le_pow_of_le_one (by norm_num) (by norm_num) (Nat.le_succ k)
      have h3 : ((98:ℚ)/100)^(k+1) * totalRotation r ≤ (98/100)^k * totalRotation r :=
        mul_le_mul_of_nonneg_right h2 hT
      have h4 : ((98:ℚ)/100)^k * totalRotation r ≤ (98/100)^k * (totalRotation r + 1) :=
        mul_le_mul_of_nonneg_left (by linarith) (by positivity)
      linarith
    obtain ⟨rf, hrf⟩ := momentumRun_some_of_total k r hb
    exact ⟨k, rf, hrf⟩

/-- Witness for the amended C4 theorem: a unit delta strictly shrinks under
one dampening frame, and a concrete released state (xw delta 0.001) reaches
a final state with total magnitude at most the threshold. -/
theorem momentum_decay_witness :
    |dampStep (fun _ => (1:ℚ)) Axis6.xw| < |(1:ℚ)| ∧
      totalRotation (dampStep (fun a =>
        match a with | Axis6.xw => (1:ℚ)/1000 | _ => 0)) ≤ 1/1000 := by
  constructor
  · exact momentum_decay.1 (fun _ => 1) Axis6.xw (by norm_num)
  · refine momentum_decay.2.2 0 (fun a => match a with | Axis6.xw => (1:ℚ)/1000 | _ => 0)
      (dampStep (fun a => match a with | Axis6.xw => (1:ℚ)/1000 | _ => 0)) ?_
    have habs : |(19:ℚ)/20000| = 19/20000 := abs_of_pos (by norm_num)
    have hcond : ¬ (totalRotation (dampStep (fun a =>
        match a with | Axis6.xw => (1:ℚ)/1000 | _ => 0)) > 1/1000) := by
      norm_num [totalRotation, dampStep, dampeningOf, habs]
    simp only [momentumRun]
    rw [if_neg hcond]

/-- Claim C4 counterexample: starting from xw delta 0.001, the dampening
loop stops after one frame with the xw delta frozen at 0.00095, which is
*not* exactly zero — contradicting "the deltas remain exactly zero" after
falling below the threshold. -/
theorem momentum_not_zeroed_cex :
    (momentumRun 0 (fun a => match a with | Axis6.xw => (1:ℚ)/1000 | _ => 0)).map
        (fun r => r Axis6.xw) = Option.some (19/20000) ∧
      (19/20000 : ℚ) ≠ 0 := by
  have habs2 : |(19:ℚ)/20000| = 19/20000 := abs_of_pos (by norm_num)
  constructor
  · norm_num [momentumRun, dampStep, dampeningOf, totalRotation, habs2]
  · norm_num

theorem jsAdd_nan_right (x : JSNum) : jsAdd x JSNum.nan = JSNum.nan := by
  cases x <;> rfl

theorem jsSub_nan_left (y : JSNum) : jsSub JSNum.nan y = JSNum.nan := by
  cases y <;> rfl

theorem jsMul_nan_left (y : JSNum) : jsMul JSNum.nan y = JSNum.nan := by
  cases y <;> rfl

theorem jsMin_fin (a b : ℚ) : jsMin (JSNum.fin a) (JSNum.fin b) = JSNum.fin (min a b) := by
  simp only [jsMin, jsLtB, decide_eq_true_eq]
  by_cases h : a < b
  · rw [if_pos h, min_eq_left (le_of_lt h)]
  · rw [if_neg h, min_eq_right (le_of_not_lt h)]

theorem jsMax_fin (a b : ℚ) : jsMax (JSNum.fin a) (JSNum.fin b) = JSNum.fin (max a b) := by
  simp only [jsMax, jsLtB, decide_eq_true_eq]
  by_cases h : a < b
  · rw [if_pos h, max_eq_right (le_of_lt h)]
  · rw [if_neg h, max_eq_left (le_of_not_lt h)]

theorem constrainJS_nan (fuel : ℕ) (p : ParamId) :
    constrainParameterJS fuel p JSNum.nan = Option.some JSNum.nan := by
  cases p <;> cases fuel <;> rfl

theorem wrapUpJS_fin_complete (lo w : ℚ) (hw : 0 < w) (v : ℚ) :
    ∃ n, wrapUpJS (JSNum.fin lo) (JSNum.fin w) n (JSNum.fin v)
      = Option.some (JSNum.fin (wrapIntoAbove lo w v)) := by
  refine wrapIntoAbove.induct lo w (fun u => ∃ n,
    wrapUpJS (JSNum.fin lo) (JSNum.fin w) n (JSNum.fin u)
      = Option.some (JSNum.fin (wrapIntoAbove lo w u))) ?_ ?_ v
  · intro x h ih
    obtain ⟨n, hn⟩ := ih
    refine ⟨n + 1, ?_⟩
    rw [wrapIntoAbove, dif_pos h]
    simp only [wrapUpJS, jsLtB, jsAdd, decide_eq_true_eq]
    rw [if_pos h.2]
    exact hn
  · intro x h
    refine ⟨0, ?_⟩
    rw [wrapIntoAbove, dif_neg h]
    simp only [wrapUpJS, jsLtB, decide_eq_true_eq]
    rw [if_neg (fun hx => h ⟨hw, hx⟩)]

theorem wrapDownJS_fin_complete (hi w : ℚ) (hw : 0 < w) (v : ℚ) :
    ∃ n, wrapDownJS (JSNum.fin hi) (JSNum.fin w) n (JSNum.fin v)
      = Option.some (JSNum.fin (wrapIntoBelow hi w v)) := by
  refine wrapIntoBelow.induct hi w (fun u => ∃ n,
    wrapDownJS (JSNum.fin hi) (JSNum.fin w) n (JSNum.fin u)
      = Option.some (JSNum.fin (wrapIntoBelow hi w u))) ?_ ?_ v
  · intro x h ih
    obtain ⟨n, hn⟩ := ih
    refine ⟨n + 1, ?_⟩
    rw [wrapIntoBelow, dif_pos h]
    have hsub : jsSub (JSNum.fin x) (JSNum.fin w) = JSNum.fin (x - w) := by
      simp [jsSub, jsNeg, jsAdd, sub_eq_add_neg]
    simp only [wrapDownJS, jsLtB, decide_eq_true_eq]
    rw [if_pos h.2, hsub]
    exact hn
  · intro x h
    refine ⟨0, ?_⟩
    rw [wrapIntoBelow, dif_neg h]
    simp only [wrapDownJS, jsLtB, decide_eq_true_eq]
    rw [if_neg (fun hx => h ⟨hw, hx⟩)]

theorem wrapUpJS_mono (lo w : JSNum) (n : ℕ) :
    ∀ (m : ℕ) (v r : JSNum), n ≤ m → wrapUpJS lo w n v = Option.some r →
      wrapUpJS lo w m v = Option.some r := by
  induction n with
  | zero =>
      intro m v r _ h
      simp only [wrapUpJS] at h
      by_cases hg : jsLtB v lo = true
      · rw [if_pos hg] at h
        exact absurd h (by simp)
      · rw [if_neg hg] at h
        cases m <;> (simp only [wrapUpJS]; rw [if_neg hg]; exact h)
  | succ n ih =>
      intro m v r hnm h
      simp only [wrapUpJS] at h
      by_cases hg : jsLtB v lo = true
      · rw [if_pos hg] at h
        cases m with
        | zero => omega
        | succ m =>
            simp only [wrapUpJS]
            rw [if_pos hg]
            exact ih m _ r (by omega) h
      · rw [if_neg hg] at h
        cases m <;> (simp only [wrapUpJS]; rw [if_neg hg]; exact h)

theorem wrapDownJS_mono (hi w : JSNum) (n : ℕ) :
    ∀ (m : ℕ) (v r : JSNum), n ≤ m → wrapDownJS hi w n v = Option.some r →
      wrapDownJS hi w m v = Option.some r := by
  induction n with
  | zero =>
      intro m v r _ h
      simp only [wrapDownJS] at h
      by_cases hg : jsLtB hi v = true
      · rw [if_pos hg] at h
        exact absurd h (by simp)
      · rw [if_neg hg] at h
        cases m <;> (simp only [wrapDownJS]; rw [if_neg hg]; exact h)
  | succ n ih =>
      intro m v r hnm h
      simp only [wrapDownJS] at h
      by_cases hg : jsLtB hi v = true
      · rw [if_pos hg] at h
        cases m with
        | zero => omega
        | succ m =>
            simp only [wrapDownJS]
            rw [if_pos hg]
            exact ih m _ r (by omega) h
      · rw [if_neg hg] at h
        cases m <;> (simp only [wrapDownJS]; rw [if_neg hg]; exact h)

theorem wrapDownJS_hue_posInf (n : ℕ) :
    wrapDownJS (JSNum.fin 360) (JSNum.fin 360) n JSNum.posInf = Option.none := by
  induction n with
  | zero => rfl
  | succ n ih =>
      show wrapDownJS (JSNum.fin 360) (JSNum.fin 360) n
        (jsSub JSNum.posInf (JSNum.fin 360)) = Option.none
      exact ih

theorem wrapUpJS_hue_negInf (n : ℕ) :
    wrapUpJS (JSNum.fin 0) (JSNum.fin 360) n JSNum.negInf = Option.none := by
  induction n with
  | zero => rfl
  | succ n ih =>
      show wrapUpJS (JSNum.fin 0) (JSNum.fin 360) n
        (jsAdd JSNum.negInf (JSNum.fin 360)) = Option.none
      exact ih

theorem constrainJS_hue_posInf (n : ℕ) :
    constrainParameterJS n ParamId.hue JSNum.posInf = Option.none := by
  have h1 : wrapUpJS (JSNum.fin 0) (JSNum.fin 360) n JSNum.posInf
      = Option.some JSNum.posInf := by cases n <;> rfl
  simp [constrainParameterJS, constraintOf, h1, wrapDownJS_hue_posInf n]

theorem constrainJS_hue_negInf (n : ℕ) :
    constrainParameterJS n ParamId.hue JSNum.negInf = Option.none := by
  simp [constrainParameterJS, constraintOf, wrapUpJS_hue_negInf n]

theorem constrainJS_fin_total (p : ParamId) (q : ℚ) :
    ∃ n, constrainParameterJS n p (JSNum.fin q)
      = Option.some (JSNum.fin (constrainParameter p q)) := by
  cases p
  case hue =>
    obtain ⟨n1, h1⟩ := wrapUpJS_fin_complete 0 (360 - 0) (by norm_num) q
    obtain ⟨n2, h2⟩ := wrapDownJS_fin_complete 360 (360 - 0) (by norm_num)
      (wrapIntoAbove 0 (360 - 0) q)
    refine ⟨max n1 n2, ?_⟩
    have h1m := wrapUpJS_mono (JSNum.fin 0) (JSNum.fin (360 - 0)) n1 (max n1 n2) _ _
      (le_max_left _ _) h1
    have h2m := wrapDownJS_mono (JSNum.fin 360) (JSNum.fin (360 - 0)) n2 (max n1 n2) _ _
      (le_max_right _ _) h2
    have hz : (360 : ℚ) - 0 = 360 := by norm_num
    rw [hz] at h1m h2m
    simp [constrainParameterJS, constraintOf, constrainParameter, h1m, h2m, hz]
  all_goals exact ⟨0, by simp [constrainParameterJS, constraintOf, constrainParameter,
    jsMax_fin, jsMin_fin]⟩

/-- Claim C8 (amended): the constraint policy terminates and returns a value
for every *finite* raw value (agreeing with the rational-valued model) and
for NaN; but for the wrap parameter `hue`, a raw value of `+Infinity` or
`-Infinity` makes the wrap `while` loop run forever — no iteration bound
suffices — so `apply` is *not* total on all JavaScript numbers and the tick
body does not complete. -/
theorem constrainParameterJS_totality :
    (∀ (p : ParamId) (q : ℚ), ∃ n, constrainParameterJS n p (JSNum.fin q)
        = Option.some (JSNum.fin (constrainParameter p q))) ∧
      (∀ p : ParamId, constrainParameterJS 0 p JSNum.nan = Option.some JSNum.nan) ∧
      (∀ n : ℕ, constrainParameterJS n ParamId.hue JSNum.posInf = Option.none) ∧
      (∀ n : ℕ, constrainParameterJS n ParamId.hue JSNum.negInf = Option.none) :=
  ⟨constrainJS_fin_total, constrainJS_nan 0, constrainJS_hue_posInf, constrainJS_hue_negInf⟩

/-- Claim C8 counterexample: at the explicit input `hue`, `+Infinity`, the
wrap-normalization loop of the constraint policy never finishes — after any
number `n` of loop iterations it is still running (`Option.none`), refuting
"returns a value without diverging for every numeric raw value". -/
theorem constrainParameterJS_posInf_diverges : constrainJSDivergesAtHuePosInf :=
  constrainJS_hue_posInf

/-- Claim C7 (amended): no NaN/Infinity detection exists at the
combine/constrain or smoothing steps — a NaN reactive contribution
propagates through `value` and `smoothed` into the emitted snapshot (it is
*not* replaced by the parameter's base, and no warning path exists); each
parameter is processed independently, so other parameters still tick. -/
theorem tickParamJS_nan_propagates (fuel : ℕ) (p : ParamId) (st r : JSParamState)
    (h : tickParamJS fuel p JSNum.nan st = Option.some r) :
    r.smoothed = JSNum.nan ∧ r.value = JSNum.nan := by
  unfold tickParamJS at h
  simp only [jsAdd_nan_right, constrainJS_nan] at h
  rw [jsSub_nan_left, jsMul_nan_left, jsAdd_nan_right] at h
  have h2 := Option.some.inj h
  subst h2
  exact ⟨rfl, rfl⟩

/-- Witness for the amended C7 theorem: a tick of the `chaos` parameter
(base 0.2) with a NaN contribution produces NaN in both the value and the
emitted smoothed field. -/
theorem tickParamJS_nan_propagates_witness :
    ((⟨JSNum.nan, JSNum.fin (1/5), JSNum.nan, JSNum.nan⟩ : JSParamState).smoothed
        = JSNum.nan) ∧
      ((⟨JSNum.nan, JSNum.fin (1/5), JSNum.nan, JSNum.nan⟩ : JSParamState).value
        = JSNum.nan) :=
  tickParamJS_nan_propagates 0 ParamId.chaos
    ⟨JSNum.fin (1/5), JSNum.fin (1/5), JSNum.fin 0, JSNum.fin (1/5)⟩
    ⟨JSNum.nan, JSNum.fin (1/5), JSNum.nan, JSNum.nan⟩ rfl

/-- Claim C7 counterexample: for `chaos` (base 0.2, smoothed 0.2) a NaN
appearing in the combined value is not detected — the tick stores NaN in
`value`, `reactive` and `smoothed` (so the snapshot emits NaN), instead of
resetting `smoothed` to the base 0.2 as claimed. -/
theorem tickParamJS_nan_cex :
    tickParamJS 0 ParamId.chaos JSNum.nan
        ⟨JSNum.fin (1/5), JSNum.fin (1/5), JSNum.fin 0, JSNum.fin (1/5)⟩
      = Option.some ⟨JSNum.nan, JSNum.fin (1/5), JSNum.nan, JSNum.nan⟩ ∧
      JSNum.nan ≠ JSNum.fin (1/5) := by
  exact ⟨rfl, by simp⟩
